import Mathlib

/-!
Verification of the server-side cursor client of this repository
(`src/pymongo/synchronous/cursor.py`) against its natural-language
specification.

The Python module is shallowly embedded: the `Cursor` object becomes a
Lean structure, each method becomes a pure function that returns the
updated cursor state together with an optional raised error (mirroring
the exact order of attribute mutations and `raise` statements in the
source), and the network is an explicit `Outcome` argument describing
what one wire exchange returns.  Python `int` is `Int`, attribute
truthiness is modelled per type (`None`/`0`/`""`/empty dict are falsy),
and BSON documents are ordered key/value lists, matching `dict`/`SON`
iteration order.
-/

namespace Mongo

/-- A BSON-like value, as far as `_query_spec` needs to inspect one. -/
inductive BVal where
  | vint (n : Int)
  | vstr (s : String)
  | vbool (b : Bool)
  | vdoc (d : List (String × BVal))
deriving Repr

/-- An ordered document: Python `dict`/`SON` with insertion order. -/
abbrev Doc := List (String × BVal)

/-- Python truthiness of a value (`0`, `""`, `False` and `{}` are falsy). -/
def BVal.truthy : BVal → Bool
  | .vint n => n != 0
  | .vstr s => s != ""
  | .vbool b => b
  | .vdoc d => !d.isEmpty

/-- Truthiness of an `Optional[Mapping]` attribute: `None` and `{}` are falsy. -/
def optDocTruthy : Option Doc → Bool
  | none => false
  | some d => !d.isEmpty

/-- Truthiness of an `Optional[Any]` attribute holding a value. -/
def optValTruthy : Option BVal → Bool
  | none => false
  | some v => v.truthy

/-- Truthiness of an `Optional[int]` attribute: `None` and `0` are falsy. -/
def optIntTruthy : Option Int → Bool
  | none => false
  | some n => n != 0

/-- `key in d` for an ordered document. -/
def hasKey (d : Doc) (k : String) : Bool := d.any (fun kv => kv.1 == k)

/-- `next(iter(d))`: the first key of an ordered document, if any. -/
def firstKey (d : Doc) : Option String := d.head?.map (fun kv => kv.1)

/-- `d[k] = v` on an ordered document: replace in place, else append
(Python `dict` update semantics). -/
def setKey : Doc → String → BVal → Doc
  | [], k, v => [(k, v)]
  | (k0, v0) :: rest, k, v =>
      if k0 == k then (k, v) :: rest else (k0, v0) :: setKey rest k v

/-- `d.update(ops)` on ordered documents. -/
def dictUpdate (d : Doc) (ops : Doc) : Doc :=
  ops.foldl (fun acc kv => setKey acc kv.1 kv.2) d

/-- `a & ~b` on non-negative Python ints (`self._query_flags &= ~mask`).
`a &&& b` is a bitwise subset of `a`, so subtraction clears exactly the
common bits. -/
def natAndNot (a b : Nat) : Nat := a - (a &&& b)

/-- Errors the embedded methods can raise. -/
inductive Err where
  | invalidOperation
  | typeErr
  | valueErr
  | indexErr
  | operationFailureErr (code : Int) (timeout : Bool)
  | connectionFailureErr
deriving Repr, DecidableEq

/-- Modelled from the spec: the wire-protocol query flag bits.  The module
`pymongo/cursor_shared.py` defining `_QUERY_OPTIONS` is not under `src/`;
these are the standard MongoDB OP_QUERY flag bits that the source
manipulates through that table ("tailable_cursor" = 2, "oplog_replay" = 8,
"no_timeout" = 16, "await_data" = 32, "exhaust" = 64). -/
def qTailable : Nat := 2

/-- Modelled from the spec: the "oplog_replay" wire flag bit. -/
def qOplogReplay : Nat := 8

/-- Modelled from the spec: the "no_timeout" wire flag bit. -/
def qNoTimeout : Nat := 16

/-- Modelled from the spec: the "await_data" wire flag bit. -/
def qAwaitData : Nat := 32

/-- Modelled from the spec: the "exhaust" wire flag bit. -/
def qExhaust : Nat := 64

/-- `CursorType.NON_TAILABLE` (pymongo/cursor_shared.py, not under src/). -/
def CursorType.NON_TAILABLE : Nat := 0

/-- `CursorType.TAILABLE = _QUERY_OPTIONS["tailable_cursor"]`. -/
def CursorType.TAILABLE : Nat := qTailable

/-- `CursorType.TAILABLE_AWAIT = TAILABLE | _QUERY_OPTIONS["await_data"]`:
a two-bit mask.  The source itself uses it as a mask (`__getitem__` strips
it with `&= ~CursorType.TAILABLE_AWAIT`, matching the spec's "strips any
await flag"). -/
def CursorType.TAILABLE_AWAIT : Nat := qTailable ||| qAwaitData

/-- `CursorType.EXHAUST = _QUERY_OPTIONS["exhaust"]`. -/
def CursorType.EXHAUST : Nat := qExhaust

/-- Modelled from the spec: the "cursor-not-found / cursor-closed" class of
server error codes (`_CURSOR_CLOSED_ERRORS` in pymongo/cursor_shared.py,
not under src/): CursorNotFound = 43, QueryPlanKilled = 175,
CursorKilled = 237. -/
def _CURSOR_CLOSED_ERRORS : List Int := [43, 175, 237]

/-- The owning client, reduced to the two predicates the cursor consults. -/
structure Client where
  is_mongos : Bool
  _encrypter : Bool
deriving Repr

/-- A database handle: a name and its client. -/
structure Database where
  name : String
  client : Client
deriving Repr

/-- A collection handle: its database and name. -/
structure Collection where
  database : Database
  name : String
deriving Repr

/-- `_ConnectionManager`: used with exhaust cursors to ensure the pinned
connection is returned.  `conn` is the held connection handle (an opaque
id), `None` once returned to the pool. -/
structure _ConnectionManager where
  conn : Option Nat
  more_to_come : Bool
deriving Repr

/-- `_ConnectionManager.close`: return this instance's connection to the
connection pool.  The returned `Bool` records whether `conn.unpin()` ran,
i.e. whether the connection was handed back to the pool by this call. -/
def _ConnectionManager.close (m : _ConnectionManager) : _ConnectionManager × Bool :=
  match m.conn with
  | some _ => ({ m with conn := none }, true)
  | none => (m, false)

/-- The cursor state: the attributes `Cursor.__init__` establishes, with
source names.  Buffered documents are opaque tokens (`Nat`); a connection
handle and a session handle are opaque ids.  Attributes that no claim and
no embedded operation reads (`_codec_options`, `_read_preference`,
`_read_concern`, `_timeout`, `_projection` content, `_snapshot` wire use)
are carried only where an embedded operation touches them. -/
structure Cursor where
  _collection : Collection
  _id : Option Int
  _exhaust : Bool
  _sock_mgr : Option _ConnectionManager
  _killed : Bool
  _session : Option Nat
  _explicit_session : Bool
  _let : Option Doc
  _spec : Doc
  _has_filter : Bool
  _projection : Option Doc
  _skip : Int
  _limit : Int
  _batch_size : Int
  _ordering : Option Doc
  _max_scan : Option Int
  _explain : Bool
  _comment : Option BVal
  _max_time_ms : Option Int
  _max_await_time_ms : Option Int
  _max : Option Doc
  _min : Option Doc
  _collation : Option Doc
  _return_key : Option Bool
  _show_record_id : Option Bool
  _allow_disk_use : Option Bool
  _snapshot : Option Bool
  _hint : Option BVal
  _empty : Bool
  _data : List Nat
  _address : Option Nat
  _retrieved : Nat
  _query_flags : Nat
  _cursor_type : Nat
  _dbname : String
  _collname : String
  _exhaust_checked : Bool
deriving Repr

/-- Truthiness of `self._id`: `None` and `0` are falsy, a live id truthy. -/
def idTruthy : Option Int → Bool
  | none => false
  | some n => n != 0

/-- `Cursor._check_okay_to_chain`: `some` error iff
`self._retrieved or self._id is not None`. -/
def Cursor._check_okay_to_chain (c : Cursor) : Option Err :=
  if c._retrieved != 0 || c._id.isSome then some .invalidOperation else none

/-- `Cursor._supports_exhaust`: exhaust cursor support validation run at
construction time (`_IS_SYNC`) or on first advance. -/
def Cursor._supports_exhaust (c : Cursor) : Cursor × Option Err :=
  if c._cursor_type == CursorType.EXHAUST then
    if c._collection.database.client.is_mongos then (c, some .invalidOperation)
    else if c._limit != 0 then (c, some .invalidOperation)
    else ({ c with _exhaust := true }, none)
  else (c, none)

/-- `Cursor.add_option`: set arbitrary query flags using a bitmask.
The `isinstance` check on `mask` is vacuous under typing. -/
def Cursor.add_option (c : Cursor) (mask : Nat) : Cursor × Option Err :=
  match c._check_okay_to_chain with
  | some e => (c, some e)
  | none =>
    if mask &&& qExhaust != 0 then
      if c._limit != 0 then (c, some .invalidOperation)
      else if c._collection.database.client.is_mongos then (c, some .invalidOperation)
      else ({ c with _exhaust := true, _query_flags := c._query_flags ||| mask }, none)
    else ({ c with _query_flags := c._query_flags ||| mask }, none)

/-- `Cursor.remove_option`: unset arbitrary query flags using a bitmask. -/
def Cursor.remove_option (c : Cursor) (mask : Nat) : Cursor × Option Err :=
  match c._check_okay_to_chain with
  | some e => (c, some e)
  | none =>
    if mask &&& qExhaust != 0 then
      ({ c with _exhaust := false,
                _query_flags := natAndNot c._query_flags mask }, none)
    else ({ c with _query_flags := natAndNot c._query_flags mask }, none)

/-- `Cursor.allow_disk_use`: the `isinstance(allow_disk_use, bool)` check is
vacuous under typing; then the chain guard, then the assignment. -/
def Cursor.allow_disk_use (c : Cursor) (v : Bool) : Cursor × Option Err :=
  match c._check_okay_to_chain with
  | some e => (c, some e)
  | none => ({ c with _allow_disk_use := some v }, none)

/-- `Cursor.limit`: type check (vacuous), then the exhaust incompatibility
check, then the chain guard, then clear `_empty` and assign. -/
def Cursor.limit (c : Cursor) (lmt : Int) : Cursor × Option Err :=
  if c._exhaust then (c, some .invalidOperation)
  else
    match c._check_okay_to_chain with
    | some e => (c, some e)
    | none => ({ c with _empty := false, _limit := lmt }, none)

/-- `Cursor.batch_size`: type check (vacuous), then the `< 0` range check
(`ValueError`), then the chain guard, then the assignment. -/
def Cursor.batch_size (c : Cursor) (n : Int) : Cursor × Option Err :=
  if n < 0 then (c, some .valueErr)
  else
    match c._check_okay_to_chain with
    | some e => (c, some e)
    | none => ({ c with _batch_size := n }, none)

/-- `Cursor.skip`: type check (vacuous), then the `< 0` range check
(`ValueError`), then the chain guard, then the assignment. -/
def Cursor.skip (c : Cursor) (n : Int) : Cursor × Option Err :=
  if n < 0 then (c, some .valueErr)
  else
    match c._check_okay_to_chain with
    | some e => (c, some e)
    | none => ({ c with _skip := n }, none)

/-- `Cursor.max_time_ms`: type check (vacuous for `Option Int`), then the
chain guard, then the assignment. -/
def Cursor.max_time_ms (c : Cursor) (v : Option Int) : Cursor × Option Err :=
  match c._check_okay_to_chain with
  | some e => (c, some e)
  | none => ({ c with _max_time_ms := v }, none)

/-- `Cursor.max_await_time_ms`: type check (vacuous), chain guard, then
`if self._query_flags & CursorType.TAILABLE_AWAIT:` — a bitmask test
against the two-bit mask, so the value is recorded whenever the tailable
bit *or* the await bit is set. -/
def Cursor.max_await_time_ms (c : Cursor) (v : Option Int) : Cursor × Option Err :=
  match c._check_okay_to_chain with
  | some e => (c, some e)
  | none =>
    if c._query_flags &&& CursorType.TAILABLE_AWAIT != 0 then
      ({ c with _max_await_time_ms := v }, none)
    else (c, none)

/-- `Cursor.max_scan`: chain guard, then the assignment. -/
def Cursor.max_scan (c : Cursor) (v : Option Int) : Cursor × Option Err :=
  match c._check_okay_to_chain with
  | some e => (c, some e)
  | none => ({ c with _max_scan := v }, none)

/-- `Cursor.max`: `isinstance(spec, (list, tuple))` is vacuous under
typing; chain guard, then `self._max = dict(spec)`. -/
def Cursor.max (c : Cursor) (sp : Doc) : Cursor × Option Err :=
  match c._check_okay_to_chain with
  | some e => (c, some e)
  | none => ({ c with _max := some sp }, none)

/-- `Cursor.min`: `isinstance(spec, (list, tuple))` is vacuous under
typing; chain guard, then `self._min = dict(spec)`. -/
def Cursor.min (c : Cursor) (sp : Doc) : Cursor × Option Err :=
  match c._check_okay_to_chain with
  | some e => (c, some e)
  | none => ({ c with _min := some sp }, none)

/-- `Cursor.sort`: chain guard first, then
`self._ordering = _index_document(_index_list(key_or_list, direction))`.
The index helpers live in `pymongo/helpers_shared.py` (not under `src/`);
the argument is taken as the already-validated key/direction document. -/
def Cursor.sort (c : Cursor) (keys : Doc) : Cursor × Option Err :=
  match c._check_okay_to_chain with
  | some e => (c, some e)
  | none => ({ c with _ordering := some keys }, none)

/-- `Cursor.hint`: chain guard, then `_set_hint` (a string stays a string,
an index list becomes an index document; taken pre-converted). -/
def Cursor.hint (c : Cursor) (index : Option BVal) : Cursor × Option Err :=
  match c._check_okay_to_chain with
  | some e => (c, some e)
  | none => ({ c with _hint := index }, none)

/-- `Cursor.comment`: chain guard, then the assignment. -/
def Cursor.comment (c : Cursor) (cm : BVal) : Cursor × Option Err :=
  match c._check_okay_to_chain with
  | some e => (c, some e)
  | none => ({ c with _comment := some cm }, none)

/-- `Cursor.collation`: chain guard, then
`self._collation = validate_collation_or_none(collation)` (the validator
lives in `pymongo/collation.py`, not under `src/`; taken pre-validated). -/
def Cursor.collation (c : Cursor) (col : Option Doc) : Cursor × Option Err :=
  match c._check_okay_to_chain with
  | some e => (c, some e)
  | none => ({ c with _collation := col }, none)

/-- `Cursor.where`: chain guard, wrap `code` in `Code` (identity here),
copy the spec when a filter was user-supplied, then `spec["$where"] = code`. -/
def Cursor.where_ (c : Cursor) (code : BVal) : Cursor × Option Err :=
  match c._check_okay_to_chain with
  | some e => (c, some e)
  | none => ({ c with _spec := setKey c._spec "$where" code }, none)

/-- `Cursor._query_spec`: get the spec to use for a query.  Builds the
`operators` dict guard by guard in source order, then either merges it
into a (possibly `$query`-wrapped) copy of the filter, or applies the
legacy `"query"`-first-key wrapping, or returns the filter unchanged.
The source performs no attribute assignment here, so the embedding is a
pure function of the state. -/
def Cursor._query_spec (c : Cursor) : Doc :=
  let operators : Doc := []
  let operators := if optDocTruthy c._ordering then
    operators ++ [("$orderby", BVal.vdoc (c._ordering.getD []))] else operators
  let operators := if c._explain then
    operators ++ [("$explain", BVal.vbool true)] else operators
  let operators := if optValTruthy c._hint then
    operators ++ [("$hint", c._hint.getD (BVal.vint 0))] else operators
  let operators := if optDocTruthy c._let then
    operators ++ [("let", BVal.vdoc (c._let.getD []))] else operators
  let operators := if optValTruthy c._comment then
    operators ++ [("$comment", c._comment.getD (BVal.vint 0))] else operators
  let operators := if optIntTruthy c._max_scan then
    operators ++ [("$maxScan", BVal.vint (c._max_scan.getD 0))] else operators
  let operators := if c._max_time_ms.isSome then
    operators ++ [("$maxTimeMS", BVal.vint (c._max_time_ms.getD 0))] else operators
  let operators := if optDocTruthy c._max then
    operators ++ [("$max", BVal.vdoc (c._max.getD []))] else operators
  let operators := if optDocTruthy c._min then
    operators ++ [("$min", BVal.vdoc (c._min.getD []))] else operators
  let operators := if c._return_key.isSome then
    operators ++ [("$returnKey", BVal.vbool (c._return_key.getD false))] else operators
  let operators := if c._show_record_id.isSome then
    operators ++ [("$showDiskLoc", BVal.vbool (c._show_record_id.getD false))] else operators
  let operators := if c._snapshot.isSome then
    operators ++ [("$snapshot", BVal.vbool (c._snapshot.getD false))] else operators
  if !operators.isEmpty then
    let spec := c._spec
    let spec := if hasKey spec "$query" then spec else [("$query", BVal.vdoc spec)]
    dictUpdate spec operators
  else if hasKey c._spec "query" &&
      (c._spec.length == 1 || firstKey c._spec == some "query") then
    [("$query", BVal.vdoc c._spec)]
  else
    c._spec

/-- `Cursor.__getitem__` on a slice: chain guard, clear `_empty` (this
mutation precedes the `IndexError` raises, exactly as in the source),
reject a step, reject a negative start, derive `skip`/`limit` from the
bounds, and set `_empty` for a zero-width range. -/
def Cursor.getitemSlice (c0 : Cursor) (strt stp stepO : Option Int) :
    Cursor × Option Err :=
  match c0._check_okay_to_chain with
  | some e => (c0, some e)
  | none =>
    let c := { c0 with _empty := false }
    if stepO.isSome then (c, some .indexErr)
    else
      match strt with
      | some s =>
        if s < 0 then (c, some .indexErr)
        else
          match stp with
          | some e2 =>
            let lim := e2 - s
            if lim < 0 then (c, some .indexErr)
            else
              let c := if lim == 0 then { c with _empty := true } else c
              ({ c with _skip := s, _limit := lim }, none)
          | none => ({ c with _skip := s, _limit := 0 }, none)
      | none =>
        match stp with
        | some e2 =>
          let lim := e2 - 0
          if lim < 0 then (c, some .indexErr)
          else
            let c := if lim == 0 then { c with _empty := true } else c
            ({ c with _skip := 0, _limit := lim }, none)
        | none => ({ c with _skip := 0, _limit := 0 }, none)

/-- `Cursor.alive`: `bool(len(self._data) or (not self._killed))`. -/
def Cursor.alive (c : Cursor) : Bool :=
  c._data.length != 0 || !c._killed

/-- `Cursor._prepare_to_die`: mark killed; a killCursors exchange is
needed only if a live id was assigned and the cursor was not already
killed.  Returns (state, cursor_id to kill, target address + namespace). -/
def Cursor._prepare_to_die (c : Cursor) (already_killed : Bool) :
    Cursor × Int × Option (Nat × String × String) :=
  let c1 := { c with _killed := true }
  if idTruthy c._id && !already_killed then
    (c1, c._id.getD 0,
     c._address.map (fun a => (a, c._dbname, c._collname)))
  else
    (c1, 0, none)

/-- `Cursor._die_lock` (the body of `close()`): `_prepare_to_die`, then
`client._cleanup_cursor_lock(cursor_id, address, sock_mgr, session,
explicit_session)` — the client entry point (not under `src/`) issues
the killCursors exchange exactly when it is given a nonzero `cursor_id`
(spec §4.5: skip it for a never-assigned or already-killed cursor) —
then drop an implicit session and clear the sock manager reference.
The returned `Bool` records whether a kill exchange was forwarded. -/
def Cursor._die_lock (c : Cursor) : Cursor × Bool :=
  let pd := c._prepare_to_die c._killed
  let c1 := pd.1
  let cursor_id := pd.2.1
  let killSent := cursor_id != 0
  ({ c1 with _session := if c1._explicit_session then c1._session else none,
             _sock_mgr := none }, killSent)

/-- `Cursor._die_no_lock`: identical decision logic through
`client._cleanup_cursor_no_lock`, for contexts that cannot take the
client lock. -/
def Cursor._die_no_lock (c : Cursor) : Cursor × Bool :=
  let pd := c._prepare_to_die c._killed
  let c1 := pd.1
  let cursor_id := pd.2.1
  let killSent := cursor_id != 0
  ({ c1 with _session := if c1._explicit_session then c1._session else none,
             _sock_mgr := none }, killSent)

/-- `Cursor.close`: explicitly close / kill this cursor (`_die_lock`). -/
def Cursor.close (c : Cursor) : Cursor × Bool :=
  c._die_lock

/-- The wire request `_refresh` hands to `_send_message`: either a
`_Query` (initial find, carrying flags, namespace, skip, spec, limit and
batch size) or a `_GetMore` (carrying namespace, the computed
`ntoreturn` and the live cursor id).  Fields the claims never inspect
(codec options, read preference/concern, session, client) are omitted. -/
inductive Request where
  | query (flags : Nat) (dbname coll : String) (skp : Int) (spec : Doc)
      (lim batch : Int)
  | getmore (dbname coll : String) (ntoreturn : Int) (cursor_id : Int)
deriving Repr

/-- What one network exchange produces, as decoded by the collaborator
protocol layer: a successful command response (new cursor id, batch of
documents, responding address, optional pinned exhaust connection,
optional namespace override), a server-reported `OperationFailure`
with its code and timeout flag, or a `ConnectionFailure`. -/
inductive Outcome where
  | ok (cursor_id : Int) (docs : List Nat) (addr : Nat)
      (pinned : Option (Nat × Bool)) (ns : Option (String × String))
  | opFailure (code : Int) (timeout : Bool)
  | connFailure
deriving Repr

/-- The two closing rules at the end of `_send_message`'s success path:
`if self._id == 0: self.close()` (exhausted — release now, don't wait
for garbage collection) and
`if self._limit and self._id and self._limit <= self._retrieved:
self.close()` (limit reached with a live server cursor — close
proactively). -/
def Cursor._apply_close_rules (c1 : Cursor) : Cursor :=
  let c2 := if c1._id == some 0 then (c1.close).1 else c1
  if c2._limit != 0 && idTruthy c2._id &&
      decide (c2._limit ≤ (c2._retrieved : Int)) then (c2.close).1 else c2

/-- `Cursor._send_message`: send a query or getmore operation and handle
the response (the modern command-form path; the legacy `_OpReply` branch
differs only in taking the count from the reply header).  On
`OperationFailure`: mark killed for cursor-closed codes or exhaust mode,
release via the lock-free path on timeout else via `close()`, and swallow
the error for a cursor-closed code on a tailable cursor.  On success:
record the address, adopt a pinned exhaust connection, store the new id,
replace the buffer, advance `_retrieved`, apply the find-command
namespace override, and close on exhaustion or on reaching the limit. -/
def Cursor._send_message (c : Cursor) (req : Request) (out : Outcome) :
    Cursor × Option Err :=
  if c._collection.database.client._encrypter && c._exhaust then
    (c, some .invalidOperation)
  else
    match out with
    | .opFailure code tmo =>
      let c1 := if _CURSOR_CLOSED_ERRORS.contains code || c._exhaust then
        { c with _killed := true } else c
      let c2 := if tmo then (c1._die_no_lock).1 else (c1.close).1
      if _CURSOR_CLOSED_ERRORS.contains code &&
          (c2._query_flags &&& qTailable != 0) then
        (c2, none)
      else
        (c2, some (.operationFailureErr code tmo))
    | .connFailure =>
      let c1 := { c with _killed := true }
      ((c1.close).1, some .connectionFailureErr)
    | .ok cid docs addr pinned ns =>
      let c1 := { c with _address := some addr }
      let c1 := match pinned with
        | some (conn, mtc) =>
          if c1._sock_mgr.isNone then
            { c1 with _sock_mgr := some { conn := some conn, more_to_come := mtc } }
          else c1
        | none => c1
      let c1 :=
        match req with
        | .query _ _ _ _ _ _ _ =>
          if c1._explain then
            -- cmd_name == "explain"
            { c1 with _id := some 0, _data := docs,
                      _retrieved := c1._retrieved + docs.length }
          else
            -- cmd_name == "find": firstBatch, plus the ns override
            let c1 := { c1 with _id := some cid, _data := docs,
                                _retrieved := c1._retrieved + docs.length }
            match ns with
            | some (db, co) => { c1 with _dbname := db, _collname := co }
            | none => c1
        | .getmore _ _ _ _ =>
          -- cmd_name == "getMore": nextBatch
          { c1 with _id := some cid, _data := docs,
                    _retrieved := c1._retrieved + docs.length }
      (Cursor._apply_close_rules c1, none)

/-- The `ntoreturn` computation of `_refresh` for a getmore:
`limit - retrieved`, additionally capped by a nonzero batch size, when a
limit is set; else the batch size. -/
def Cursor.getMoreSize (c : Cursor) : Int :=
  if c._limit != 0 then
    let l := c._limit - (c._retrieved : Int)
    if c._batch_size != 0 then Min.min l c._batch_size else l
  else c._batch_size

/-- The result of one `_refresh` call: the new state, the error raised
(if any), the returned buffer length, how many network exchanges were
performed (0 or 1), and the request issued (if any). -/
structure RefreshOut where
  state : Cursor
  raised : Option Err
  bufLen : Nat
  exchanges : Nat
  request : Option Request
deriving Repr

/-- The lazy session binding of `_refresh`:
`if not self._session: self._session = client._ensure_session()` (the
fresh implicit session is an opaque handle, id 0). -/
def Cursor._bind_session (c : Cursor) : Cursor :=
  if c._session.isNone then { c with _session := some 0 } else c

/-- The dispatch of `_refresh` after the early exit and the session
binding: for an unstarted cursor validate min/max-without-hint (raising
before any network call) and issue the initial query; for a live id
issue a getmore sized by `getMoreSize`; an exhausted id (0) fetches
nothing. -/
def Cursor._refresh_core (c : Cursor) (out : Outcome) : RefreshOut :=
  match c._id with
  | none =>
    if (optDocTruthy c._min || optDocTruthy c._max) &&
        !optValTruthy c._hint then
      { state := c, raised := some .invalidOperation, bufLen := 0,
        exchanges := 0, request := none }
    else
      let q : Request := .query c._query_flags c._collection.database.name
        c._collection.name c._skip c._query_spec c._limit c._batch_size
      let se := c._send_message q out
      { state := se.1, raised := se.2, bufLen := se.1._data.length,
        exchanges := 1, request := some q }
  | some i =>
    if i != 0 then
      let g : Request := .getmore c._dbname c._collname c.getMoreSize i
      let se := c._send_message g out
      { state := se.1, raised := se.2, bufLen := se.1._data.length,
        exchanges := 1, request := some g }
    else
      { state := c, raised := none, bufLen := c._data.length,
        exchanges := 0, request := none }

/-- `Cursor._refresh`: refresh the cursor with more data.  Exit early on
a non-empty buffer or a killed cursor; otherwise lazily bind a session
and dispatch on the cursor id. -/
def Cursor._refresh (c : Cursor) (out : Outcome) : RefreshOut :=
  if c._data.length != 0 || c._killed then
    { state := c, raised := none, bufLen := c._data.length,
      exchanges := 0, request := none }
  else
    Cursor._refresh_core c._bind_session out

/-- What a call to `Cursor.next` produces for the caller: a document, a
`StopIteration` (the non-error end-of-stream signal), or a raised error. -/
inductive NextRes where
  | doc (d : Nat)
  | stopIter
  | raised (e : Err)
deriving Repr, DecidableEq

/-- The deferred exhaust check at the top of `next`/`_next_batch`:
`if not self._exhaust_checked: self._exhaust_checked = True;
self._supports_exhaust()`. -/
def Cursor._check_exhaust (c : Cursor) : Cursor × Option Err :=
  if !c._exhaust_checked then
    Cursor._supports_exhaust { c with _exhaust_checked := true }
  else (c, none)

/-- The body of `Cursor.next` after the exhaust check: short-circuit the
`EMPTY` state, pop the buffer head, else `_refresh` and pop or signal
`StopIteration`. -/
def Cursor._next_core (c : Cursor) (out : Outcome) : NextRes × Cursor × Nat :=
  if c._empty then (.stopIter, c, 0)
  else
    match c._data with
    | d :: rest => (.doc d, { c with _data := rest }, 0)
    | [] =>
      let r := c._refresh out
      match r.raised with
      | some err => (.raised err, r.state, r.exchanges)
      | none =>
        match r.state._data with
        | d :: rest => (.doc d, { r.state with _data := rest }, r.exchanges)
        | [] => (.stopIter, r.state, r.exchanges)

/-- `Cursor.next`: run the deferred exhaust check, then advance.  Also
returns the number of network exchanges used. -/
def Cursor.next (c : Cursor) (out : Outcome) : NextRes × Cursor × Nat :=
  let ce := c._check_exhaust
  match ce.2 with
  | some err => (.raised err, ce.1, 0)
  | none => Cursor._next_core ce.1 out

/-- The body of `Cursor._next_batch` after the exhaust check: drain all
buffered documents (`total = none`) or up to `total` of them, refreshing
first if the buffer is empty. -/
def Cursor._next_batch_core (c : Cursor) (total : Option Nat)
    (out : Outcome) : List Nat × Bool × Option Err × Cursor × Nat :=
  if c._empty then ([], false, none, c, 0)
  else
    let r := if c._data.length != 0 then
      { state := c, raised := none, bufLen := c._data.length,
        exchanges := 0, request := none }
      else c._refresh out
    match r.raised with
    | some err => ([], false, some err, r.state, r.exchanges)
    | none =>
      if r.state._data.length != 0 then
        match total with
        | none =>
          (r.state._data, true, none, { r.state with _data := [] },
           r.exchanges)
        | some t =>
          let k := Min.min r.state._data.length t
          (r.state._data.take k, true, none,
           { r.state with _data := r.state._data.drop k }, r.exchanges)
      else
        ([], false, none, r.state, r.exchanges)

/-- `Cursor._next_batch`: the exhaust check, then the batch drain.
Returns (documents moved out, whether any were available, error raised,
new state, exchanges used). -/
def Cursor._next_batch (c : Cursor) (total : Option Nat) (out : Outcome) :
    List Nat × Bool × Option Err × Cursor × Nat :=
  let ce := c._check_exhaust
  match ce.2 with
  | some err => ([], false, some err, ce.1, 0)
  | none => Cursor._next_batch_core ce.1 total out

/-- `Cursor.__init__` (the option subset the claims exercise; omitted
options default to `None`/`False` as in the source): validates the
cursor type and batch size, assembles the query flags, and — because
`_IS_SYNC` — runs `_supports_exhaust` during construction with
`_exhaust_checked = True`. -/
def Cursor.init (collection : Collection) (filter : Option Doc)
    (skp lim : Int) (no_cursor_timeout : Bool) (cursor_type : Nat)
    (allowPartialResults oplogReplay : Bool) (batch : Int)
    (session : Option Nat) : Except Err Cursor :=
  if !(cursor_type == CursorType.NON_TAILABLE ||
       cursor_type == CursorType.TAILABLE ||
       cursor_type == CursorType.TAILABLE_AWAIT ||
       cursor_type == CursorType.EXHAUST) then
    .error .valueErr
  else if batch < 0 then .error .valueErr
  else
    let flags := cursor_type |||
      (if no_cursor_timeout then qNoTimeout else 0) |||
      (if allowPartialResults then 128 else 0) |||
      (if oplogReplay then qOplogReplay else 0)
    let c : Cursor :=
      { _collection := collection, _id := none, _exhaust := false,
        _sock_mgr := none, _killed := false, _session := session,
        _explicit_session := session.isSome, _let := none,
        _spec := filter.getD [], _has_filter := filter.isSome,
        _projection := none, _skip := skp, _limit := lim,
        _batch_size := batch, _ordering := none, _max_scan := none,
        _explain := false, _comment := none, _max_time_ms := none,
        _max_await_time_ms := none, _max := none, _min := none,
        _collation := none, _return_key := none, _show_record_id := none,
        _allow_disk_use := none, _snapshot := none, _hint := none,
        _empty := false, _data := [], _address := none, _retrieved := 0,
        _query_flags := flags, _cursor_type := cursor_type,
        _dbname := collection.database.name, _collname := collection.name,
        _exhaust_checked := true }
    match c._supports_exhaust with
    | (c2, none) => .ok c2
    | (_, some e) => .error e

/-- One caller-driven step against a cursor handle: a `next()` call, a
`_next_batch` call (the drain primitive behind `to_list`), or a
`close()`.  An `Outcome` accompanies the advancing steps, to be consumed
if the step performs a network exchange. -/
inductive Step where
  | stepNext (o : Outcome)
  | stepBatch (total : Option Nat) (o : Outcome)
  | stepClose
deriving Repr

/-- Apply one step; returns the new state, the number of documents
handed to the caller by the step, and the network exchanges used. -/
def applyStep (c : Cursor) : Step → Cursor × Nat × Nat
  | .stepNext o =>
    let r := c.next o
    (r.2.1, (match r.1 with | .doc _ => 1 | _ => 0), r.2.2)
  | .stepBatch total o =>
    let r := c._next_batch total o
    (r.2.2.2.1, r.1.length, r.2.2.2.2)
  | .stepClose => ((c.close).1, 0, 0)

/-- Run a sequence of steps, accumulating the documents returned to the
caller and the exchanges performed. -/
def runTrace (c : Cursor) : List Step → Cursor × Nat × Nat
  | [] => (c, 0, 0)
  | s :: rest =>
    let a := applyStep c s
    let b := runTrace a.1 rest
    (b.1, a.2.1 + b.2.1, a.2.2 + b.2.2)

/-- The number of documents a compliant server may return to the
exchange `_refresh` would issue from state `c`: the limit for an initial
query with a positive limit, the computed `getMoreSize` for a getmore
under a positive limit, unbounded otherwise. -/
def fetchCap (c : Cursor) : Option Nat :=
  if c._data.length != 0 || c._killed || c._empty then none
  else
    match c._id with
    | none => if c._limit > 0 then some c._limit.toNat else none
    | some _ => if c._limit > 0 then some c.getMoreSize.toNat else none

/-- A server-compliant outcome for state `c`: a successful batch never
exceeds the requested document cap. -/
def outcomeCompliant (c : Cursor) (o : Outcome) : Bool :=
  match o with
  | .ok _ docs _ _ _ =>
    match fetchCap c with
    | some k => docs.length ≤ k
    | none => true
  | _ => true

/-- Every advancing step of the trace carries a server-compliant outcome
for the state it is applied to. -/
def stepCompliant (c : Cursor) : Step → Bool
  | .stepNext o => outcomeCompliant c o
  | .stepBatch _ o => outcomeCompliant c o
  | .stepClose => true

def traceCompliant (c : Cursor) : List Step → Bool
  | [] => true
  | s :: rest =>
    stepCompliant c s && traceCompliant (applyStep c s).1 rest

/-- Call `next()` `n` times (a killed or empty cursor consults the
network for none of them; the dummy outcome is a connection failure so
that any accidental exchange would surface as a raised error).  Returns
the documents produced in order, the final state, and the exchanges
used. -/
def collectNexts : Cursor → Nat → List Nat × Cursor × Nat
  | c, 0 => ([], c, 0)
  | c, n + 1 =>
    match c.next .connFailure with
    | (.doc d, c1, e1) =>
      let (ds, c2, e2) := collectNexts c1 n
      (d :: ds, c2, e1 + e2)
    | (_, c1, e1) => ([], c1, e1)

/-- A client fixture: not a mongos router, no auto-encryption. -/
def baseClient : Client := { is_mongos := false, _encrypter := false }

/-- A collection fixture `db.test`. -/
def baseCollection : Collection :=
  { database := { name := "db", client := baseClient }, name := "test" }

/-- A freshly constructed default cursor over `baseCollection` — the
state `Cursor.__init__(collection)` produces with all options at their
defaults. -/
def baseCursor : Cursor :=
  { _collection := baseCollection, _id := none, _exhaust := false,
    _sock_mgr := none, _killed := false, _session := none,
    _explicit_session := false, _let := none, _spec := [],
    _has_filter := false, _projection := none, _skip := 0, _limit := 0,
    _batch_size := 0, _ordering := none, _max_scan := none,
    _explain := false, _comment := none, _max_time_ms := none,
    _max_await_time_ms := none, _max := none, _min := none,
    _collation := none, _return_key := none, _show_record_id := none,
    _allow_disk_use := none, _snapshot := none, _hint := none,
    _empty := false, _data := [], _address := none, _retrieved := 0,
    _query_flags := 0, _cursor_type := 0, _dbname := "db",
    _collname := "test", _exhaust_checked := true }

/-- A default cursor on which one document has already been retrieved. -/
def usedCursor : Cursor := { baseCursor with _retrieved := 1 }

/-- No modifier operator is set: each guard of `_query_spec`'s
`operators` construction is falsy. -/
def noModifierOps (c : Cursor) : Bool :=
  !optDocTruthy c._ordering && !c._explain && !optValTruthy c._hint &&
  !optDocTruthy c._let && !optValTruthy c._comment &&
  !optIntTruthy c._max_scan && !c._max_time_ms.isSome &&
  !optDocTruthy c._max && !optDocTruthy c._min && !c._return_key.isSome &&
  !c._show_record_id.isSome && !c._snapshot.isSome

/-- A cursor whose filter has two keys, the first of which is `"query"`,
and no modifiers. -/
def queryFirstCursor : Cursor :=
  { baseCursor with _spec := [("query", .vint 1), ("a", .vint 2)] }

/-- The state `Cursor.__init__(collection, cursor_type=CursorType.TAILABLE)`
produces. -/
def tailableCursor : Cursor :=
  { baseCursor with
    _query_flags := CursorType.TAILABLE, _cursor_type := CursorType.TAILABLE }

/-- The invariant a positive limit `L` maintains along any compliant
trace: the limit field stays `L`, the retrieved count never exceeds `L`,
a live (nonzero-id) un-killed cursor has strictly fewer than `L`
retrieved, and an unqueried cursor has retrieved 0. -/
def InvL (L : Int) (c : Cursor) : Prop :=
  c._limit = L ∧ ((c._retrieved : Int) ≤ L) ∧
  (idTruthy c._id = true → c._killed = false → ((c._retrieved : Int) < L)) ∧
  (c._id = none → c._retrieved = 0)

/-- The compliant trace the C2 witness runs: two getMore-sized batches
of one document against `limit = 2`, then one more `next` call. -/
def c2steps : List Step :=
  [.stepNext (.ok 7 [10] 1 none none), .stepNext (.ok 7 [11] 1 none none),
   .stepNext .connFailure]

/-! ### Helper lemmas -/

theorem prepare_to_die_fst (c : Cursor) (ak : Bool) :
    (c._prepare_to_die ak).1 = { c with _killed := true } := by
  unfold Cursor._prepare_to_die
  split <;> rfl

theorem close_fst (c : Cursor) :
    (c.close).1 = { c with
      _killed := true,
      _session := if c._explicit_session then c._session else none,
      _sock_mgr := none } := by
  simp only [Cursor.close, Cursor._die_lock, prepare_to_die_fst]

theorem die_no_lock_fst (c : Cursor) :
    (c._die_no_lock).1 = { c with
      _killed := true,
      _session := if c._explicit_session then c._session else none,
      _sock_mgr := none } := by
  simp only [Cursor._die_no_lock, prepare_to_die_fst]

theorem close_snd_of_killed (c : Cursor) (h : c._killed = true) :
    (c.close).2 = false := by
  unfold Cursor.close Cursor._die_lock Cursor._prepare_to_die
  simp [h, idTruthy]

@[simp] theorem bind_session_data (c : Cursor) :
    c._bind_session._data = c._data := by
  unfold Cursor._bind_session; split <;> rfl

@[simp] theorem bind_session_killed (c : Cursor) :
    c._bind_session._killed = c._killed := by
  unfold Cursor._bind_session; split <;> rfl

@[simp] theorem bind_session_id (c : Cursor) :
    c._bind_session._id = c._id := by
  unfold Cursor._bind_session; split <;> rfl

@[simp] theorem bind_session_min (c : Cursor) :
    c._bind_session._min = c._min := by
  unfold Cursor._bind_session; split <;> rfl

@[simp] theorem bind_session_max (c : Cursor) :
    c._bind_session._max = c._max := by
  unfold Cursor._bind_session; split <;> rfl

@[simp] theorem bind_session_hint (c : Cursor) :
    c._bind_session._hint = c._hint := by
  unfold Cursor._bind_session; split <;> rfl

@[simp] theorem bind_session_collection (c : Cursor) :
    c._bind_session._collection = c._collection := by
  unfold Cursor._bind_session; split <;> rfl

@[simp] theorem bind_session_exhaust (c : Cursor) :
    c._bind_session._exhaust = c._exhaust := by
  unfold Cursor._bind_session; split <;> rfl

@[simp] theorem bind_session_query_flags (c : Cursor) :
    c._bind_session._query_flags = c._query_flags := by
  unfold Cursor._bind_session; split <;> rfl

@[simp] theorem bind_session_limit (c : Cursor) :
    c._bind_session._limit = c._limit := by
  unfold Cursor._bind_session; split <;> rfl

@[simp] theorem bind_session_batch_size (c : Cursor) :
    c._bind_session._batch_size = c._batch_size := by
  unfold Cursor._bind_session; split <;> rfl

@[simp] theorem bind_session_retrieved (c : Cursor) :
    c._bind_session._retrieved = c._retrieved := by
  unfold Cursor._bind_session; split <;> rfl

@[simp] theorem bind_session_dbname (c : Cursor) :
    c._bind_session._dbname = c._dbname := by
  unfold Cursor._bind_session; split <;> rfl

@[simp] theorem bind_session_collname (c : Cursor) :
    c._bind_session._collname = c._collname := by
  unfold Cursor._bind_session; split <;> rfl

@[simp] theorem bind_session_empty (c : Cursor) :
    c._bind_session._empty = c._empty := by
  unfold Cursor._bind_session; split <;> rfl

@[simp] theorem bind_session_exhaust_checked (c : Cursor) :
    c._bind_session._exhaust_checked = c._exhaust_checked := by
  unfold Cursor._bind_session; split <;> rfl

@[simp] theorem bind_session_explain (c : Cursor) :
    c._bind_session._explain = c._explain := by
  unfold Cursor._bind_session; split <;> rfl

@[simp] theorem bind_session_getMoreSize (c : Cursor) :
    c._bind_session.getMoreSize = c.getMoreSize := by
  unfold Cursor.getMoreSize; simp

theorem chain_blocked (c : Cursor) (h : c._retrieved ≠ 0 ∨ c._id ≠ none) :
    c._check_okay_to_chain = some .invalidOperation := by
  unfold Cursor._check_okay_to_chain
  rcases h with h | h
  · simp [h]
  · have h2 : c._id.isSome = true := by
      cases hid : c._id with
      | none => exact absurd hid h
      | some v => rfl
    simp [h2]

/-! ### Claim C1 -/

/-- C1, counterexample to the claim as stated: `batch_size(-1)` on a
cursor that has already retrieved a document raises `ValueError` (the
range check precedes the chain guard), not `InvalidOperation`. -/
theorem claim1_counterexample :
    usedCursor._retrieved ≠ 0 ∧
    (Cursor.batch_size usedCursor (-1)).2 = some Err.valueErr ∧
    (Cursor.batch_size usedCursor (-1)).2 ≠ some Err.invalidOperation := by
  refine ⟨by decide, rfl, by decide⟩

/-- C1 (amended): every chainable configuration setter (`limit`, `skip`,
`batch_size`, `sort`, `hint`, `collation`, `comment`, `max_time_ms`,
`max_await_time_ms`, `min`, `max`, `max_scan`, `add_option`,
`remove_option`, `allow_disk_use`, `where`) called on a cursor from which
a document has been retrieved or whose server cursor id is non-null
fails with `InvalidOperation` and leaves every configuration field
unchanged (the returned state is exactly the input state) — except that
`skip` and `batch_size` called with a negative argument raise
`ValueError` instead (their range check precedes the chain guard), so
those two are stated for arguments passing their own range validation. -/
theorem claim1_freeze_after_use (c : Cursor)
    (h : c._retrieved ≠ 0 ∨ c._id ≠ none) :
    (∀ n : Nat, c.add_option n = (c, some .invalidOperation)) ∧
    (∀ n : Nat, c.remove_option n = (c, some .invalidOperation)) ∧
    (∀ b : Bool, c.allow_disk_use b = (c, some .invalidOperation)) ∧
    (∀ n : Int, c.limit n = (c, some .invalidOperation)) ∧
    (∀ n : Int, 0 ≤ n → c.batch_size n = (c, some .invalidOperation)) ∧
    (∀ n : Int, 0 ≤ n → c.skip n = (c, some .invalidOperation)) ∧
    (∀ v, c.max_time_ms v = (c, some .invalidOperation)) ∧
    (∀ v, c.max_await_time_ms v = (c, some .invalidOperation)) ∧
    (∀ v, c.max_scan v = (c, some .invalidOperation)) ∧
    (∀ sp, c.max sp = (c, some .invalidOperation)) ∧
    (∀ sp, c.min sp = (c, some .invalidOperation)) ∧
    (∀ k, c.sort k = (c, some .invalidOperation)) ∧
    (∀ i, c.hint i = (c, some .invalidOperation)) ∧
    (∀ cm, c.comment cm = (c, some .invalidOperation)) ∧
    (∀ col, c.collation col = (c, some .invalidOperation)) ∧
    (∀ cd, c.where_ cd = (c, some .invalidOperation)) := by
  have hb := chain_blocked c h
  refine ⟨?_, ?_, ?_, ?_, ?_, ?_, ?_, ?_, ?_, ?_, ?_, ?_, ?_, ?_, ?_, ?_⟩
  · intro n; simp [Cursor.add_option, hb]
  · intro n; simp [Cursor.remove_option, hb]
  · intro b; simp [Cursor.allow_disk_use, hb]
  · intro n; by_cases hx : c._exhaust <;> simp [Cursor.limit, hx, hb]
  · intro n hn; simp [Cursor.batch_size, not_lt.mpr hn, hb]
  · intro n hn; simp [Cursor.skip, not_lt.mpr hn, hb]
  · intro v; simp [Cursor.max_time_ms, hb]
  · intro v; simp [Cursor.max_await_time_ms, hb]
  · intro v; simp [Cursor.max_scan, hb]
  · intro sp; simp [Cursor.max, hb]
  · intro sp; simp [Cursor.min, hb]
  · intro k; simp [Cursor.sort, hb]
  · intro i; simp [Cursor.hint, hb]
  · intro cm; simp [Cursor.comment, hb]
  · intro col; simp [Cursor.collation, hb]
  · intro cd; simp [Cursor.where_, hb]

/-- C1, witness: the amended theorem applied to a concrete used cursor. -/
theorem claim1_witness :
    (usedCursor._retrieved ≠ 0 ∨ usedCursor._id ≠ none) ∧
    Cursor.limit usedCursor 7 = (usedCursor, some .invalidOperation) ∧
    Cursor.skip usedCursor 3 = (usedCursor, some .invalidOperation) := by
  have h : usedCursor._retrieved ≠ 0 ∨ usedCursor._id ≠ none :=
    Or.inl (by decide)
  have hc := claim1_freeze_after_use usedCursor h
  exact ⟨h, hc.2.2.2.1 7, hc.2.2.2.2.2.1 3 (by decide)⟩

/-! ### Claim C4 -/

/-- C4: `close()` is idempotent.  Closing is total (the embedding returns
no error by construction, matching the source which raises nothing on
this path); the second of two `close()` calls sees `_killed` already true
and forwards no kill exchange, so at most the first call issues one; and
the exhaust `_ConnectionManager.close` returns the pinned connection to
the pool at most once (the second call finds `conn` already `None`). -/
theorem claim4_idempotent_close :
    ∀ (c : Cursor) (m : _ConnectionManager),
    ((c.close).1.close).2 = false ∧
    ((m.close).1.close).2 = false ∧
    ((m.close).1).conn = none := by
  intro c m
  refine ⟨?_, ?_, ?_⟩
  · apply close_snd_of_killed
    rw [close_fst]
  · cases hm : m.conn <;> simp [_ConnectionManager.close, hm]
  · cases hm : m.conn <;> simp [_ConnectionManager.close, hm]

/-! ### Claim C5 -/

/-- C5, counterexample to the claim as stated: with no modifiers set, a
*two*-key filter whose first key is `"query"` is *not* returned
unchanged — `_query_spec` forces the `$query` wrapping although the
filter is not a single-key document. -/
theorem claim5_counterexample :
    noModifierOps queryFirstCursor = true ∧
    queryFirstCursor._spec.length = 2 ∧
    queryFirstCursor._query_spec =
      [("$query", BVal.vdoc queryFirstCursor._spec)] ∧
    queryFirstCursor._query_spec ≠ queryFirstCursor._spec := by
  refine ⟨rfl, rfl, rfl, ?_⟩
  intro h
  have hl := congrArg List.length h
  simp [queryFirstCursor, Cursor._query_spec, baseCursor, optDocTruthy,
    optValTruthy, optIntTruthy, hasKey, firstKey, dictUpdate] at hl

/-- C5 (amended): `_query_spec` is a pure function of the state (the
source performs no attribute assignment in it, so the embedding takes a
cursor and returns a document, leaving the state untouched by
construction), and when no modifier operators are set it returns the
filter unchanged — except that if the filter contains the key `"query"`
and either is a single-key document or has `"query"` as its first key,
it forces the `$query` envelope wrapping. -/
theorem claim5_query_spec_no_modifiers (c : Cursor)
    (h : noModifierOps c = true) :
    c._query_spec =
      (if hasKey c._spec "query" &&
          (c._spec.length == 1 || firstKey c._spec == some "query") then
        [("$query", BVal.vdoc c._spec)]
      else c._spec) := by
  unfold noModifierOps at h
  simp only [Bool.and_eq_true, Bool.not_eq_true'] at h
  obtain ⟨⟨⟨⟨⟨⟨⟨⟨⟨⟨⟨h1, h2⟩, h3⟩, h4⟩, h5⟩, h6⟩, h7⟩, h8⟩, h9⟩, h10⟩,
    h11⟩, h12⟩ := h
  unfold Cursor._query_spec
  simp [h1, h2, h3, h4, h5, h6, h7, h8, h9, h10, h11, h12]

/-- C5, witness: the amended theorem applied to the single-key
`{"query": 1}` filter, which is wrapped, and evaluated. -/
theorem claim5_witness :
    noModifierOps { baseCursor with _spec := [("query", BVal.vint 1)] } = true ∧
    Cursor._query_spec { baseCursor with _spec := [("query", BVal.vint 1)] } =
      [("$query", BVal.vdoc [("query", BVal.vint 1)])] := by
  constructor
  · rfl
  · rw [claim5_query_spec_no_modifiers
      { baseCursor with _spec := [("query", BVal.vint 1)] } rfl]
    rfl

/-! ### Claim C6 -/

/-- C6, counterexample to the claim as stated: a live cursor with
`limit = 5`, `retrieved = 2` and `batch_size = 0` issues a getmore
requesting `limit - retrieved = 3` documents, not
`min(limit - retrieved, batchSize) = min(3, 0) = 0`. -/
theorem claim6_counterexample :
    (Cursor._refresh { baseCursor with
      _limit := 5, _retrieved := 2, _batch_size := 0, _id := some 9 }
      .connFailure).request = some (.getmore "db" "test" 3 9) ∧
    (5 : Int) ≠ 0 ∧
    (3 : Int) ≠ Min.min ((5 : Int) - 2) 0 := by
  refine ⟨rfl, by decide, by decide⟩

/-- C6 (amended): every fetch-more exchange issued by `_refresh` on an
active cursor (nonzero server id, empty buffer, not killed) requests
`getMoreSize` documents, which equals `min(limit − retrieved, batchSize)`
when both a limit and a nonzero batch size are set, `limit − retrieved`
when a limit is set but the batch size is 0 (unset), and `batchSize`
when no limit is set. -/
theorem claim6_getmore_size (c : Cursor) (out : Outcome) (g : Int)
    (hdata : c._data = []) (hkill : c._killed = false)
    (hid : c._id = some g) (hg : g ≠ 0) :
    (c._refresh out).request =
      some (.getmore c._dbname c._collname c.getMoreSize g) ∧
    (c._limit ≠ 0 → c._batch_size ≠ 0 →
      c.getMoreSize = Min.min (c._limit - (c._retrieved : Int)) c._batch_size) ∧
    (c._limit ≠ 0 → c._batch_size = 0 →
      c.getMoreSize = c._limit - (c._retrieved : Int)) ∧
    (c._limit = 0 → c.getMoreSize = c._batch_size) := by
  refine ⟨?_, ?_, ?_, ?_⟩
  · unfold Cursor._refresh Cursor._refresh_core
    simp [hdata, hkill, hid, hg]
  · intro hl hbs; simp [Cursor.getMoreSize, hl, hbs]
  · intro hl hbs; simp [Cursor.getMoreSize, hl, hbs]
  · intro hl; simp [Cursor.getMoreSize, hl]

/-- C6, witness: the amended theorem applied to a live cursor with
`limit = 5`, `retrieved = 2`, `batch_size = 2`, which requests
`min(3, 2) = 2`. -/
theorem claim6_witness :
    ({ baseCursor with
       _limit := 5, _retrieved := 2, _batch_size := 2,
       _id := some 9 } : Cursor)._data = [] ∧
    (Cursor._refresh { baseCursor with
      _limit := 5, _retrieved := 2, _batch_size := 2, _id := some 9 }
      .connFailure).request = some (.getmore "db" "test" 2 9) := by
  constructor
  · rfl
  · have h := (claim6_getmore_size
      { baseCursor with
        _limit := 5, _retrieved := 2, _batch_size := 2, _id := some 9 }
      .connFailure 9 rfl rfl rfl (by decide)).1
    rw [h]
    rfl

/-! ### Claim C9 -/

/-- C9: evaluation of the code at the failing input.  A cursor whose type
is plain `TAILABLE` (query flags 2) is *not* tailable-with-await
(flags ≠ 34), yet `max_await_time_ms(5)` *records* the value: the guard
`self._query_flags & CursorType.TAILABLE_AWAIT` is a bitmask test against
the two-bit mask 34, so the tailable bit alone satisfies it.  This
contradicts the method's own docstring ("For all other types of cursor
max_await_time_ms is ignored") and its inline comment ("Ignore
max_await_time_ms if not tailable or await_data is False"). -/
theorem claim9_max_await_recorded_for_plain_tailable :
    Cursor.init baseCollection none 0 0 false CursorType.TAILABLE
      false false 0 none = .ok tailableCursor ∧
    tailableCursor._query_flags ≠ CursorType.TAILABLE_AWAIT ∧
    tailableCursor._max_await_time_ms = none ∧
    (Cursor.max_await_time_ms tailableCursor (some 5)).2 = none ∧
    (Cursor.max_await_time_ms tailableCursor (some 5)).1._max_await_time_ms
      = some 5 := by
  refine ⟨rfl, by decide, rfl, rfl, rfl⟩

/-! ### Claim C8 -/

/-- C8: iterating an unstarted cursor with min or max bounds set and no
hint raises `InvalidOperation` from the first `_refresh`, before any
network call (zero exchanges are performed). -/
theorem claim8_min_max_without_hint (c : Cursor) (out : Outcome)
    (hchk : c._exhaust_checked = true) (hemp : c._empty = false)
    (hdata : c._data = []) (hkill : c._killed = false)
    (hid : c._id = none)
    (hmm : (optDocTruthy c._min || optDocTruthy c._max) = true)
    (hhint : optValTruthy c._hint = false) :
    (c.next out).1 = .raised .invalidOperation ∧
    (c.next out).2.2 = 0 := by
  unfold Cursor.next Cursor._check_exhaust Cursor._next_core Cursor._refresh
    Cursor._refresh_core
  simp [hchk, hemp, hdata, hkill, hid, hmm, hhint]

/-- C8, witness: a concrete cursor with a min bound and no hint. -/
theorem claim8_witness :
    ({ baseCursor with _min := some [("a", BVal.vint 1)] } : Cursor)._empty
      = false ∧
    (Cursor.next { baseCursor with _min := some [("a", BVal.vint 1)] }
      (.ok 7 [10] 1 none none)).1 = .raised .invalidOperation ∧
    (Cursor.next { baseCursor with _min := some [("a", BVal.vint 1)] }
      (.ok 7 [10] 1 none none)).2.2 = 0 := by
  have h := claim8_min_max_without_hint
    { baseCursor with _min := some [("a", BVal.vint 1)] }
    (.ok 7 [10] 1 none none) rfl rfl rfl rfl rfl rfl rfl
  exact ⟨rfl, h.1, h.2⟩

/-! ### Claim C3 -/

theorem send_opFailure_swallow (c : Cursor) (req : Request) (code : Int)
    (tmo : Bool)
    (henc : (c._collection.database.client._encrypter && c._exhaust) = false)
    (hcode : _CURSOR_CLOSED_ERRORS.contains code = true)
    (htail : (c._query_flags &&& qTailable != 0) = true) :
    c._send_message req (.opFailure code tmo) =
      ({ c with
        _killed := true,
        _session := if c._explicit_session then c._session else none,
        _sock_mgr := none }, none) := by
  unfold Cursor._send_message
  rw [henc]
  simp only [Bool.false_eq_true, if_false, hcode, Bool.true_or, if_true]
  cases tmo
  · simp only [Bool.false_eq_true, if_false, close_fst, htail]
    simp [htail]
  · simp only [if_true, die_no_lock_fst, htail]
    simp [htail]

/-- C3: a fetch exchange that fails with a server `OperationFailure`
whose code is in the cursor-closed class, on a cursor whose tailable
flag is set, is swallowed: `next` signals `StopIteration` (end of
stream) rather than raising, the cursor is marked killed, and `alive` is
false.  This covers both the initial-query exchange (unstarted cursor
passing the min/max-hint validation) and the getmore exchange (live
nonzero id). -/
theorem claim3_tailable_swallow (c : Cursor) (code : Int) (tmo : Bool)
    (hchk : c._exhaust_checked = true) (hemp : c._empty = false)
    (hdata : c._data = []) (hkill : c._killed = false)
    (henc : (c._collection.database.client._encrypter && c._exhaust) = false)
    (hcode : _CURSOR_CLOSED_ERRORS.contains code = true)
    (htail : (c._query_flags &&& qTailable != 0) = true)
    (hready : (c._id = none ∧
        ((optDocTruthy c._min || optDocTruthy c._max) &&
          !optValTruthy c._hint) = false) ∨
      (∃ g, c._id = some g ∧ g ≠ 0)) :
    (c.next (.opFailure code tmo)).1 = .stopIter ∧
    (c.next (.opFailure code tmo)).2.1._killed = true ∧
    Cursor.alive (c.next (.opFailure code tmo)).2.1 = false := by
  have hsw := send_opFailure_swallow c._bind_session
  unfold Cursor.next Cursor._check_exhaust Cursor._next_core Cursor._refresh
    Cursor._refresh_core
  rcases hready with ⟨hid, hpass⟩ | ⟨g, hid, hg⟩
  · simp only [hchk, Bool.not_true, Bool.false_eq_true, if_false, hemp,
      hdata, List.length_nil, hkill, bind_session_id, hid]
    rw [hsw _ code tmo (by simpa using henc) hcode (by simpa using htail)]
    simp [hpass, Cursor.alive, hdata]
  · simp only [hchk, Bool.not_true, Bool.false_eq_true, if_false, hemp,
      hdata, List.length_nil, hkill, bind_session_id, hid]
    rw [hsw _ code tmo (by simpa using henc) hcode (by simpa using htail)]
    simp [hg, Cursor.alive, hdata]

/-- C3, witness: a tailable cursor with a live id, server error code 43
(CursorNotFound). -/
theorem claim3_witness :
    _CURSOR_CLOSED_ERRORS.contains 43 = true ∧
    (Cursor.next { baseCursor with
      _id := some 5, _query_flags := 2, _cursor_type := 2 }
      (.opFailure 43 false)).1 = .stopIter ∧
    (Cursor.next { baseCursor with
      _id := some 5, _query_flags := 2, _cursor_type := 2 }
      (.opFailure 43 false)).2.1._killed = true ∧
    Cursor.alive (Cursor.next { baseCursor with
      _id := some 5, _query_flags := 2, _cursor_type := 2 }
      (.opFailure 43 false)).2.1 = false := by
  have h := claim3_tailable_swallow
    { baseCursor with _id := some 5, _query_flags := 2, _cursor_type := 2 }
    43 false rfl rfl rfl rfl rfl rfl (by decide)
    (Or.inr ⟨5, rfl, by decide⟩)
  exact ⟨rfl, h.1, h.2.1, h.2.2⟩

/-! ### Claim C10 -/

theorem killed_collect (c : Cursor) (hk : c._killed = true)
    (he : c._empty = false) (hchk : c._exhaust_checked = true) (n : Nat) :
    collectNexts c n = (c._data.take n, { c with _data := c._data.drop n }, 0) := by
  induction n generalizing c with
  | zero =>
    rw [show ({ c with _data := c._data.drop 0 } : Cursor) = c from rfl]
    rfl
  | succ n ih =>
    obtain ⟨col, cid, exh, sm, kl, ses, es, lt, sp, hf, pj, sk, lm, bs, od,
      ms, exp, cm, mt, mat, mx, mn, cl, rk, sr, ad, snp, hnt, emp, dat, adr,
      ret, qf, ct, dbn, cln, chk⟩ := c
    simp only at hk he hchk
    subst hk he hchk
    cases dat with
    | nil =>
      simp [collectNexts, Cursor.next, Cursor._check_exhaust,
        Cursor._next_core, Cursor._refresh]
    | cons d rest =>
      simp only [collectNexts, Cursor.next, Cursor._check_exhaust,
        Cursor._next_core, Bool.not_true, Bool.false_eq_true, if_false]
      rw [ih]
      · simp
      · rfl
      · rfl
      · rfl

/-- C10: closing does not discard locally buffered documents.  After
`close()` the buffer is intact, the cursor is marked killed, `alive`
is true exactly while the buffer is non-empty, and repeated `next()`
calls pop and return the remaining buffered documents in FIFO order
(performing no network exchange) before signalling end-of-stream. -/
theorem claim10_close_keeps_buffer (c : Cursor)
    (hemp : c._empty = false) (hchk : c._exhaust_checked = true) :
    (c.close).1._data = c._data ∧
    (c.close).1._killed = true ∧
    Cursor.alive (c.close).1 = !c._data.isEmpty ∧
    (∀ n, collectNexts (c.close).1 n =
      (c._data.take n, { (c.close).1 with _data := c._data.drop n }, 0)) := by
  refine ⟨by rw [close_fst], by rw [close_fst], ?_, ?_⟩
  · rw [close_fst]
    cases c._data <;> simp [Cursor.alive]
  · intro n
    have h := killed_collect (c.close).1
      (by rw [close_fst]) (by rw [close_fst]; exact hemp)
      (by rw [close_fst]; exact hchk) n
    rw [h, close_fst]

/-- C10, witness: a closed cursor with three buffered documents yields
them in order with no exchange, then stops. -/
theorem claim10_witness :
    ({ baseCursor with _data := [1, 2, 3], _id := some 5 } : Cursor)._empty
      = false ∧
    (collectNexts (Cursor.close
      { baseCursor with _data := [1, 2, 3], _id := some 5 }).1 5).1
      = [1, 2, 3] ∧
    (collectNexts (Cursor.close
      { baseCursor with _data := [1, 2, 3], _id := some 5 }).1 5).2.2 = 0 := by
  have h := (claim10_close_keeps_buffer
    { baseCursor with _data := [1, 2, 3], _id := some 5 } rfl rfl).2.2.2 5
  rw [h]
  exact ⟨rfl, rfl, rfl⟩

/-! ### Claim C7 -/

theorem empty_trace (c : Cursor) (he : c._empty = true)
    (hchk : c._exhaust_checked = true) :
    ∀ steps, (runTrace c steps).2 = (0, 0) := by
  intro steps
  induction steps generalizing c with
  | nil => rfl
  | cons s rest ih =>
    cases s with
    | stepNext o =>
      unfold runTrace applyStep Cursor.next Cursor._check_exhaust
        Cursor._next_core
      simp only [hchk, Bool.not_true, Bool.false_eq_true, if_false, he,
        if_true]
      have := ih c he hchk
      simp [this]
    | stepBatch t o =>
      unfold runTrace applyStep Cursor._next_batch Cursor._check_exhaust
        Cursor._next_batch_core
      simp only [hchk, Bool.not_true, Bool.false_eq_true, if_false, he,
        if_true]
      have := ih c he hchk
      simp [this]
    | stepClose =>
      unfold runTrace applyStep
      have := ih (c.close).1 (by rw [close_fst]; exact he)
        (by rw [close_fst]; exact hchk)
      simp [this]

/-- C7: a slice access with `stop == start` (both the integer `s ≥ 0`)
succeeds, puts the cursor in the `EMPTY` state with `limit = 0`, and any
subsequent sequence of `next`/`_next_batch`/`close` steps returns zero
documents and performs zero network exchanges. -/
theorem claim7_empty_slice (c : Cursor) (s : Int)
    (hchain : c._check_okay_to_chain = none) (hs : 0 ≤ s)
    (hchk : c._exhaust_checked = true) :
    (c.getitemSlice (some s) (some s) none).2 = none ∧
    (c.getitemSlice (some s) (some s) none).1._empty = true ∧
    (c.getitemSlice (some s) (some s) none).1._limit = 0 ∧
    ∀ steps,
      (runTrace (c.getitemSlice (some s) (some s) none).1 steps).2 = (0, 0) := by
  have hslice : c.getitemSlice (some s) (some s) none =
      ({ c with _empty := true, _skip := s, _limit := 0 }, none) := by
    unfold Cursor.getitemSlice
    rw [hchain]
    simp [not_lt.mpr hs]
  rw [hslice]
  refine ⟨rfl, rfl, rfl, ?_⟩
  intro steps
  exact empty_trace { c with _empty := true, _skip := s, _limit := 0 }
    rfl hchk steps

/-- C7, witness: `cursor[5:5]` on a fresh default cursor, then a `next`
step against a server that would return documents: zero documents, zero
exchanges. -/
theorem claim7_witness :
    baseCursor._check_okay_to_chain = none ∧
    (baseCursor.getitemSlice (some 5) (some 5) none).1._empty = true ∧
    (runTrace (baseCursor.getitemSlice (some 5) (some 5) none).1
      [.stepNext (.ok 7 [10, 11] 1 none none),
       .stepBatch none (.ok 7 [12] 1 none none)]).2 = (0, 0) := by
  have h := claim7_empty_slice baseCursor 5 rfl (by decide) rfl
  exact ⟨rfl, h.2.1,
    h.2.2.2 [.stepNext (.ok 7 [10, 11] 1 none none),
             .stepBatch none (.ok 7 [12] 1 none none)]⟩

/-! ### Claim C2 -/

@[simp] theorem acr_data (c : Cursor) :
    c._apply_close_rules._data = c._data := by
  unfold Cursor._apply_close_rules
  simp only [close_fst]
  split_ifs <;> simp

@[simp] theorem acr_retrieved (c : Cursor) :
    c._apply_close_rules._retrieved = c._retrieved := by
  unfold Cursor._apply_close_rules
  simp only [close_fst]
  split_ifs <;> simp

@[simp] theorem acr_limit (c : Cursor) :
    c._apply_close_rules._limit = c._limit := by
  unfold Cursor._apply_close_rules
  simp only [close_fst]
  split_ifs <;> simp

@[simp] theorem acr_batch_size (c : Cursor) :
    c._apply_close_rules._batch_size = c._batch_size := by
  unfold Cursor._apply_close_rules
  simp only [close_fst]
  split_ifs <;> simp

@[simp] theorem acr_id (c : Cursor) :
    c._apply_close_rules._id = c._id := by
  unfold Cursor._apply_close_rules
  simp only [close_fst]
  split_ifs <;> simp

theorem acr_killed_cases (c : Cursor) :
    c._apply_close_rules._killed = true ∨
    c._apply_close_rules._killed = c._killed := by
  unfold Cursor._apply_close_rules
  simp only [close_fst]
  split_ifs <;> simp

theorem acr_trigger (c : Cursor)
    (h : (c._limit != 0 && idTruthy c._id &&
      decide (c._limit ≤ (c._retrieved : Int))) = true) :
    c._apply_close_rules._killed = true := by
  unfold Cursor._apply_close_rules
  simp only [close_fst]
  simp only [Bool.and_eq_true, bne_iff_ne, ne_eq, decide_eq_true_eq] at h
  split_ifs with h1 h2 h3 <;> simp_all

theorem post_batch_inv (L : Int) (hL : 0 < L) (cb : Cursor)
    (hlim : cb._limit = L) (hid : cb._id.isSome = true)
    (hg2 : (cb._retrieved : Int) ≤ L) :
    InvL L cb._apply_close_rules := by
  refine ⟨by rw [acr_limit, hlim], by rw [acr_retrieved]; exact hg2, ?_, ?_⟩
  · intro hidT hkF
    by_contra hge
    push_neg at hge
    have htrig : (cb._limit != 0 && idTruthy cb._id &&
        decide (cb._limit ≤ (cb._retrieved : Int))) = true := by
      rw [acr_id] at hidT
      rw [acr_retrieved] at hge
      simp [hlim, hidT, hge]
      omega
    rw [acr_trigger cb htrig] at hkF
    exact absurd hkF (by simp)
  · intro hnone
    rw [acr_id] at hnone
    rw [hnone] at hid
    simp at hid

theorem send_inv (L : Int) (hL : 0 < L) (c : Cursor) (req : Request)
    (out : Outcome) (hInv : InvL L c) (hdata : c._data = [])
    (hcap : ∀ cid docs addr pinned ns, out = .ok cid docs addr pinned ns →
      ((docs.length : Int) ≤ L - (c._retrieved : Int))) :
    InvL L (c._send_message req out).1 ∧
    (c._send_message req out).1._data.length + c._retrieved =
      (c._send_message req out).1._retrieved := by
  obtain ⟨g1, g2, g3, g4⟩ := hInv
  unfold Cursor._send_message
  by_cases hg : (c._collection.database.client._encrypter && c._exhaust) = true
  · simp only [hg, if_true]
    exact ⟨⟨g1, g2, g3, g4⟩, by simp [hdata]⟩
  · rw [Bool.not_eq_true] at hg
    rw [hg]
    simp only [Bool.false_eq_true, if_false]
    cases out with
    | opFailure code tmo =>
      split_ifs <;>
        simp_all [close_fst, die_no_lock_fst, InvL, hdata] <;>
          split_ifs <;>
            simp_all [close_fst, die_no_lock_fst, InvL, hdata]
    | connFailure =>
      refine ⟨⟨?_, ?_, ?_, ?_⟩, ?_⟩ <;>
        simp_all [close_fst, hdata]
    | ok cid docs addr pinned ns =>
      have hc := hcap cid docs addr pinned ns rfl
      rcases pinned with _ | ⟨conn, mtc⟩ <;>
        by_cases hsm : c._sock_mgr.isNone <;>
          cases req <;>
            by_cases hex : c._explain <;>
              rcases ns with _ | ⟨db, co⟩ <;>
                simp only [hsm, hex, if_true, if_false, Bool.false_eq_true,
                  eq_self_iff_true, if_neg, if_pos] <;>
                  (refine ⟨post_batch_inv L hL _ g1 rfl ?_, ?_⟩
                   · push_cast
                     omega
                   · simp [Nat.add_comm])

theorem refresh_core_inv (L : Int) (hL : 0 < L) (c : Cursor)
    (out : Outcome) (hInv : InvL L c) (hdata : c._data = [])
    (hkill : c._killed = false)
    (hok : ∀ cid docs addr pinned ns, out = .ok cid docs addr pinned ns →
      docs.length ≤ (match c._id with
        | none => L.toNat
        | some _ => c.getMoreSize.toNat)) :
    InvL L (c._refresh_core out).state ∧
    (c._refresh_core out).state._data.length + c._retrieved =
      (c._refresh_core out).state._retrieved := by
  obtain ⟨g1, g2, g3, g4⟩ := hInv
  unfold Cursor._refresh_core
  cases hid : c._id with
  | none =>
    simp only [hid]
    by_cases hmm : ((optDocTruthy c._min || optDocTruthy c._max) &&
        !optValTruthy c._hint) = true
    · simp only [hmm, if_true]
      exact ⟨⟨g1, g2, g3, g4⟩, by simp [hdata]⟩
    · rw [Bool.not_eq_true] at hmm
      rw [hmm]
      simp only [Bool.false_eq_true, if_false]
      have hcap : ∀ cid docs addr pinned ns,
          out = .ok cid docs addr pinned ns →
          ((docs.length : Int) ≤ L - (c._retrieved : Int)) := by
        intro cid docs addr pinned ns hout
        have h := hok cid docs addr pinned ns hout
        rw [hid] at h
        simp only at h
        have hr0 := g4 hid
        rw [hr0]
        push_cast
        omega
      exact send_inv L hL c _ out ⟨g1, g2, g3, g4⟩ hdata hcap
  | some i =>
    simp only [hid]
    by_cases hi : (i != 0) = true
    · simp only [hi, if_true]
      have hlt : (c._retrieved : Int) < L := by
        apply g3 _ hkill
        rw [hid]
        simpa [idTruthy] using hi
      have hcap : ∀ cid docs addr pinned ns,
          out = .ok cid docs addr pinned ns →
          ((docs.length : Int) ≤ L - (c._retrieved : Int)) := by
        intro cid docs addr pinned ns hout
        have h := hok cid docs addr pinned ns hout
        rw [hid] at h
        simp only at h
        have hgms : c.getMoreSize ≤ L - (c._retrieved : Int) := by
          unfold Cursor.getMoreSize
          rw [g1]
          have hL0 : (L != 0) = true := by
            simpa using (by omega : L ≠ 0)
          rw [hL0]
          simp only [if_true]
          split
          · exact min_le_left _ _
          · omega
        omega
      exact send_inv L hL c _ out ⟨g1, g2, g3, g4⟩ hdata hcap
    · rw [Bool.not_eq_true] at hi
      rw [hi]
      simp only [Bool.false_eq_true, if_false]
      exact ⟨⟨g1, g2, g3, g4⟩, by simp [hdata]⟩

theorem refresh_inv (L : Int) (hL : 0 < L) (c : Cursor) (out : Outcome)
    (hInv : InvL L c) (hemp : c._empty = false)
    (hcomp : outcomeCompliant c out = true) :
    InvL L (c._refresh out).state ∧
    (c._refresh out).state._data.length + c._retrieved =
      c._data.length + (c._refresh out).state._retrieved := by
  unfold Cursor._refresh
  by_cases hguard : (c._data.length != 0 || c._killed) = true
  · simp only [hguard, if_true]
    exact ⟨hInv, by simp⟩
  · rw [Bool.not_eq_true] at hguard
    have hdl : c._data = [] := by
      rcases hd : c._data with _ | ⟨d, rest⟩
      · rfl
      · rw [hd] at hguard
        simp at hguard
    have hkill : c._killed = false := by
      rcases hk : c._killed
      · rfl
      · rw [hk] at hguard
        simp at hguard
    rw [hguard]
    simp only [Bool.false_eq_true, if_false]
    obtain ⟨g1, g2, g3, g4⟩ := hInv
    have hInv2 : InvL L c._bind_session := by
      refine ⟨by simpa using g1, by simpa using g2, ?_, ?_⟩
      · simpa using g3
      · simpa using g4
    have hok : ∀ cid docs addr pinned ns,
        out = .ok cid docs addr pinned ns →
        docs.length ≤ (match c._bind_session._id with
          | none => L.toNat
          | some _ => c._bind_session.getMoreSize.toNat) := by
      intro cid docs addr pinned ns hout
      rw [hout] at hcomp
      unfold outcomeCompliant fetchCap at hcomp
      rw [hdl, hkill, hemp] at hcomp
      simp only [List.length_nil, bne_self_eq_false, Bool.or_self,
        Bool.false_eq_true, if_false] at hcomp
      cases hid : c._id with
      | none =>
        rw [hid] at hcomp
        simp only [bind_session_id, hid]
        simp only [g1, hL, if_pos] at hcomp
        exact of_decide_eq_true hcomp
      | some i =>
        rw [hid] at hcomp
        simp only [bind_session_id, hid, bind_session_getMoreSize]
        simp only [g1, hL, if_pos] at hcomp
        exact of_decide_eq_true hcomp
    have h := refresh_core_inv L hL c._bind_session out hInv2
      (by simpa using hdl) (by simpa using hkill) hok
    rw [hdl]
    simpa using h

theorem invl_set_data (L : Int) (c : Cursor) (d : List Nat)
    (h : InvL L c) : InvL L { c with _data := d } := by
  obtain ⟨g1, g2, g3, g4⟩ := h
  exact ⟨g1, g2, g3, g4⟩

theorem next_core_inv (L : Int) (hL : 0 < L) (c : Cursor) (out : Outcome)
    (hInv : InvL L c) (hcomp : outcomeCompliant c out = true) :
    InvL L (c._next_core out).2.1 ∧
    (match (c._next_core out).1 with | .doc _ => 1 | _ => 0) +
      (c._next_core out).2.1._data.length + c._retrieved =
      c._data.length + (c._next_core out).2.1._retrieved := by
  unfold Cursor._next_core
  by_cases hemp : c._empty = true
  · simp only [hemp, if_true]
    exact ⟨hInv, by simp⟩
  · rw [Bool.not_eq_true] at hemp
    rw [hemp]
    simp only [Bool.false_eq_true, if_false]
    cases hd : c._data with
    | cons d rest =>
      refine ⟨invl_set_data L c rest hInv, ?_⟩
      simp only [hd]
      simp
      omega
    | nil =>
      have hr := refresh_inv L hL c out hInv hemp hcomp
      obtain ⟨hri, hra⟩ := hr
      rw [hd] at hra
      simp only [List.length_nil, Nat.zero_add] at hra
      cases hraised : (c._refresh out).raised with
      | some err =>
        simp only [hraised, hd, List.length_nil]
        exact ⟨hri, by omega⟩
      | none =>
        simp only [hraised, hd, List.length_nil]
        cases hsd : (c._refresh out).state._data with
        | cons d2 rest2 =>
          refine ⟨invl_set_data L _ rest2 hri, ?_⟩
          rw [hsd] at hra
          simp only [List.length_cons] at hra
          simp only [hsd]
          simp
          omega
        | nil =>
          refine ⟨hri, ?_⟩
          rw [hsd] at hra
          simp only [List.length_nil, Nat.zero_add] at hra
          simp only [hsd]
          simp
          omega

theorem batch_core_inv (L : Int) (hL : 0 < L) (c : Cursor)
    (total : Option Nat) (out : Outcome)
    (hInv : InvL L c) (hcomp : outcomeCompliant c out = true) :
    InvL L (c._next_batch_core total out).2.2.2.1 ∧
    (c._next_batch_core total out).1.length +
      (c._next_batch_core total out).2.2.2.1._data.length + c._retrieved =
      c._data.length + (c._next_batch_core total out).2.2.2.1._retrieved := by
  unfold Cursor._next_batch_core
  by_cases hemp : c._empty = true
  · simp only [hemp, if_true]
    exact ⟨hInv, by simp⟩
  · rw [Bool.not_eq_true] at hemp
    rw [hemp]
    simp only [Bool.false_eq_true, if_false]
    by_cases hdne : (c._data.length != 0) = true
    · simp only [hdne, if_true]
      cases total with
      | none =>
        refine ⟨invl_set_data L c [] hInv, ?_⟩
        simp
      | some t =>
        refine ⟨invl_set_data L c _ hInv, ?_⟩
        simp
    · rw [Bool.not_eq_true] at hdne
      rw [hdne]
      simp only [Bool.false_eq_true, if_false]
      have hdl : c._data = [] := by
        rcases hd : c._data with _ | ⟨d, rest⟩
        · rfl
        · rw [hd] at hdne
          simp at hdne
      have hr := refresh_inv L hL c out hInv hemp hcomp
      obtain ⟨hri, hra⟩ := hr
      rw [hdl] at hra
      simp only [List.length_nil, Nat.zero_add] at hra
      cases hraised : (c._refresh out).raised with
      | some err =>
        simp only [hraised, hdl, List.length_nil]
        exact ⟨hri, by omega⟩
      | none =>
        simp only [hraised, hdl, List.length_nil]
        by_cases hsd : ((c._refresh out).state._data.length != 0) = true
        · simp only [hsd, if_true]
          cases total with
          | none =>
            refine ⟨invl_set_data L _ [] hri, ?_⟩
            simpa using hra
          | some t =>
            refine ⟨invl_set_data L _ _ hri, ?_⟩
            simpa using hra
        · rw [Bool.not_eq_true] at hsd
          rw [hsd]
          simp only [Bool.false_eq_true, if_false]
          refine ⟨hri, ?_⟩
          have hz : (c._refresh out).state._data.length = 0 := by
            simpa using hsd
          simp only [List.length_nil]
          omega


theorem check_exhaust_cases (c : Cursor) :
    c._check_exhaust = (c, none) ∨
    (∃ e, c._check_exhaust = ({ c with _exhaust_checked := true }, some e)) ∨
    c._check_exhaust = ({ c with _exhaust_checked := true }, none) ∨
    c._check_exhaust =
      ({ c with _exhaust_checked := true, _exhaust := true }, none) := by
  unfold Cursor._check_exhaust Cursor._supports_exhaust
  split_ifs <;> simp

theorem step_inv (L : Int) (hL : 0 < L) (c : Cursor) (s : Step)
    (hInv : InvL L c) (hcomp : stepCompliant c s = true) :
    InvL L (applyStep c s).1 ∧
    (applyStep c s).2.1 + (applyStep c s).1._data.length + c._retrieved =
      c._data.length + (applyStep c s).1._retrieved := by
  cases s with
  | stepClose =>
    unfold applyStep
    obtain ⟨g1, g2, g3, g4⟩ := hInv
    constructor
    · rw [close_fst]
      refine ⟨g1, g2, ?_, g4⟩
      intro _ hk
      exact Bool.noConfusion (show true = false from hk)
    · rw [close_fst]
      show 0 + c._data.length + c._retrieved = c._data.length + c._retrieved
      omega
  | stepNext o =>
    have hco : outcomeCompliant c o = true := hcomp
    unfold applyStep Cursor.next
    rcases check_exhaust_cases c with hce | ⟨e, hce⟩ | hce | hce <;> rw [hce]
    · exact next_core_inv L hL c o hInv hco
    · refine ⟨hInv, ?_⟩
      show 0 + c._data.length + c._retrieved = c._data.length + c._retrieved
      omega
    · exact next_core_inv L hL _ o hInv hco
    · exact next_core_inv L hL _ o hInv hco
  | stepBatch total o =>
    have hco : outcomeCompliant c o = true := hcomp
    unfold applyStep Cursor._next_batch
    rcases check_exhaust_cases c with hce | ⟨e, hce⟩ | hce | hce <;> rw [hce]
    · exact batch_core_inv L hL c total o hInv hco
    · refine ⟨hInv, ?_⟩
      show 0 + c._data.length + c._retrieved = c._data.length + c._retrieved
      omega
    · exact batch_core_inv L hL _ total o hInv hco
    · exact batch_core_inv L hL _ total o hInv hco


theorem trace_inv (L : Int) (hL : 0 < L) :
    ∀ (steps : List Step) (c : Cursor), InvL L c →
      traceCompliant c steps = true →
      InvL L (runTrace c steps).1 ∧
      (runTrace c steps).2.1 + (runTrace c steps).1._data.length +
        c._retrieved =
        c._data.length + (runTrace c steps).1._retrieved := by
  intro steps
  induction steps with
  | nil =>
    intro c hInv _
    refine ⟨hInv, ?_⟩
    show 0 + c._data.length + c._retrieved =
      c._data.length + c._retrieved
    omega
  | cons s rest ih =>
    intro c hInv hcomp
    unfold traceCompliant at hcomp
    rw [Bool.and_eq_true] at hcomp
    obtain ⟨h1, h2⟩ := hcomp
    have hs := step_inv L hL c s hInv h1
    have hr := ih (applyStep c s).1 hs.1 h2
    refine ⟨hr.1, ?_⟩
    have ha := hs.2
    have hb := hr.2
    show (applyStep c s).2.1 + (runTrace (applyStep c s).1 rest).2.1 +
        (runTrace (applyStep c s).1 rest).1._data.length + c._retrieved =
      c._data.length + (runTrace (applyStep c s).1 rest).1._retrieved
    omega

/-- C2: limit enforcement.  Starting from a freshly constructed cursor
with `limit = L > 0`, along any sequence of `next`/`_next_batch`/`close`
steps whose network outcomes are server-compliant (each successful batch
respects the requested document cap — the initial query's `limit`, a
getmore's `getMoreSize`), the total number of documents handed to the
caller never exceeds `L`, and whenever the cumulative retrieved count
has reached `L` while the server cursor id is nonzero the cursor has
been closed (killed) in that same exchange.  `to_list` is a loop of
`_next_batch` calls, so its deliveries are covered by the
`stepBatch`-steps of the trace. -/
theorem claim2_limit_enforcement (L : Int) (c : Cursor)
    (steps : List Step) (hL : 0 < L) (hlim : c._limit = L)
    (hid : c._id = none) (hdata : c._data = []) (hret : c._retrieved = 0)
    (hcomp : traceCompliant c steps = true) :
    (runTrace c steps).2.1 ≤ L.toNat ∧
    (idTruthy (runTrace c steps).1._id = true →
      L ≤ ((runTrace c steps).1._retrieved : Int) →
      (runTrace c steps).1._killed = true) := by
  have hInv : InvL L c := by
    refine ⟨hlim, by rw [hret]; push_cast; omega, ?_, fun _ => hret⟩
    intro h1 _
    rw [hid] at h1
    exact Bool.noConfusion (show false = true from h1)
  have ht := trace_inv L hL steps c hInv hcomp
  obtain ⟨⟨g1, g2, g3, g4⟩, hacc⟩ := ht
  constructor
  · rw [hdata, hret] at hacc
    simp only [List.length_nil, Nat.add_zero, Nat.zero_add] at hacc
    omega
  · intro hidT hge
    rcases hk : (runTrace c steps).1._killed
    · exfalso
      have := g3 hidT hk
      omega
    · rfl

/-- C2, witness: the theorem applied to a fresh cursor with limit 2 and
the concrete compliant trace; it returns 2 documents (≤ 2) and the
cursor ends killed with `retrieved = 2` and a nonzero server id. -/
theorem claim2_witness :
    (0 : Int) < 2 ∧
    traceCompliant { baseCursor with _limit := 2 } c2steps = true ∧
    (runTrace { baseCursor with _limit := 2 } c2steps).2.1 ≤
      (2 : Int).toNat ∧
    (runTrace { baseCursor with _limit := 2 } c2steps).1._killed = true := by
  have h := claim2_limit_enforcement 2 { baseCursor with _limit := 2 }
    c2steps (by decide) rfl rfl rfl rfl rfl
  exact ⟨by decide, rfl, h.1, h.2 rfl (by decide)⟩

end Mongo
